import Mathlib

/-!
Verification of the client-side OAuth 2.0 Authorization-Code-with-PKCE session
manager of the send-huny-dev repository, as a shallow embedding in Lean 4.

The embedding covers:
* the PKCE material generators of `AuthService` (services/authService.ts):
  `base64UrlEncode`, `generateCodeVerifier`, `generateCodeChallenge`,
  `generateState`, with SHA-256 (the browser's
  `crypto.subtle.digest('SHA-256', ·)`) modelled concretely per FIPS 180-4 and
  UTF-8 encoding modelling `TextEncoder.encode`;
* `AuthService.initiateLoginPopup` and `AuthService.handleCallback`;
* the refresh coordinator of services/apiStorage.ts: `isRefreshing` /
  `refreshPromise`, `coordinatedRefresh`, `refreshAccessToken`,
  `clearAuthData`, `fetchWithAuth`;
* the main app (App.tsx): the `message` handler `handleMessage`, the
  app-level `refreshAccessToken` and `scheduleTokenRefresh`.

Bytes are `Nat` below 256; JavaScript strings are `String`; `localStorage` /
`sessionStorage` are records of `Option` fields (absent entry = `none`);
network responses are explicit inputs; machine words in SHA-256 are `Nat`
reduced mod 2^32.
-/

namespace SendHuny

/-! ## Base64url encoding (services/authService.ts, `base64UrlEncode`)

The source computes `btoa(String.fromCharCode(...array))` — standard RFC 4648
base64 with `=` padding over the raw bytes — then rewrites `+` to `-`, `/` to
`_` and deletes every `=`.  `base64Chunks` is the `btoa` step, `urlMapChar`
the two character replacements, and the final `filter` the `=` removal. -/

def b64alphabet : List Char :=
  "ABCDEFGHIJKLMNOPQRSTUVWXYZabcdefghijklmnopqrstuvwxyz0123456789+/".toList

/-- The base64 digit for a 6-bit value (out-of-range indices never occur for
in-range bytes; `getD` defaults to the padding character). -/
def b64char (n : Nat) : Char := b64alphabet.getD n '='

/-- Model of `btoa` over a byte list: 3 bytes become 4 digits; a 2-byte tail becomes 3
digits and one `=`; a 1-byte tail becomes 2 digits and two `=`. -/
def base64Chunks : List Nat → List Char
  | b1 :: b2 :: b3 :: rest =>
    b64char (b1 / 4) :: b64char ((b1 % 4) * 16 + b2 / 16) ::
      b64char ((b2 % 16) * 4 + b3 / 64) :: b64char (b3 % 64) :: base64Chunks rest
  | [b1, b2] => [b64char (b1 / 4), b64char ((b1 % 4) * 16 + b2 / 16), b64char ((b2 % 16) * 4), '=']
  | [b1] => [b64char (b1 / 4), b64char ((b1 % 4) * 16), '=', '=']
  | [] => []

/-- The two replacements `.replace(/\+/g, '-').replace(/\//g, '_')`. -/
def urlMapChar (c : Char) : Char :=
  if c = '+' then '-' else if c = '/' then '_' else c

/-- Function `base64UrlEncode` from services/authService.ts, over the characters. -/
def base64UrlEncode (bytes : List Nat) : List Char :=
  ((base64Chunks bytes).map urlMapChar).filter (fun c => c != '=')

/-- The base64url alphabet (the image of the standard alphabet under the two
replacements). -/
def b64urlAlphabet : List Char := b64alphabet.map urlMapChar

/-- Inverse digit lookup for decoding base64url. -/
def b64inv (c : Char) : Nat := b64urlAlphabet.indexOf c

/-- Decoder for unpadded base64url output, used to establish that the
encoding is information-preserving (the entropy claim). -/
def base64UrlDecode : List Char → List Nat
  | c1 :: c2 :: c3 :: c4 :: rest =>
    (b64inv c1 * 4 + b64inv c2 / 16) ::
      ((b64inv c2 % 16) * 16 + b64inv c3 / 4) ::
      ((b64inv c3 % 4) * 64 + b64inv c4) :: base64UrlDecode rest
  | [c1, c2, c3] =>
    [b64inv c1 * 4 + b64inv c2 / 16, (b64inv c2 % 16) * 16 + b64inv c3 / 4]
  | [c1, c2] => [b64inv c1 * 4 + b64inv c2 / 16]
  | _ => []

/-- URL-safe characters: unreserved alphanumerics plus `-` and `_`. -/
def urlSafeChar (c : Char) : Bool := c.isAlphanum || c = '-' || c = '_'

/-! ## SHA-256 (model of `crypto.subtle.digest('SHA-256', ·)`, FIPS 180-4) -/

def w32 (n : Nat) : Nat := n % 4294967296

def rotr (k n : Nat) : Nat := w32 ((n >>> k) ||| (n <<< (32 - k)))

def bnot32 (n : Nat) : Nat := n ^^^ 4294967295

def bigSigma0 (x : Nat) : Nat := rotr 2 x ^^^ rotr 13 x ^^^ rotr 22 x

def bigSigma1 (x : Nat) : Nat := rotr 6 x ^^^ rotr 11 x ^^^ rotr 25 x

def smallSigma0 (x : Nat) : Nat := rotr 7 x ^^^ rotr 18 x ^^^ (x >>> 3)

def smallSigma1 (x : Nat) : Nat := rotr 17 x ^^^ rotr 19 x ^^^ (x >>> 10)

def chFn (e f g : Nat) : Nat := (e &&& f) ^^^ (bnot32 e &&& g)

def majFn (a b c : Nat) : Nat := (a &&& b) ^^^ (a &&& c) ^^^ (b &&& c)

/-- The 64 SHA-256 round constants of FIPS 180-4 (first 32 bits of the cube
roots of the first 64 primes), in decimal. -/
def sha256K : List Nat :=
  [1116352408, 1899447441, 3049323471, 3921009573, 961987163, 1508970993,
   2453635748, 2870763221, 3624381080, 310598401, 607225278, 1426881987,
   1925078388, 2162078206, 2614888103, 3248222580, 3835390401, 4022224774,
   264347078, 604807628, 770255983, 1249150122, 1555081692, 1996064986,
   2554220882, 2821834349, 2952996808, 3210313671, 3336571891, 3584528711,
   113926993, 338241895, 666307205, 773529912, 1294757372, 1396182291,
   1695183700, 1986661051, 2177026350, 2456956037, 2730485921, 2820302411,
   3259730800, 3345764771, 3516065817, 3600352804, 4094571909, 275423344,
   430227734, 506948616, 659060556, 883997877, 958139571, 1322822218,
   1537002063, 1747873779, 1955562222, 2024104815, 2227730452, 2361852424,
   2428436474, 2756734187, 3204031479, 3329325298]

structure Hash8 where
  h0 : Nat
  h1 : Nat
  h2 : Nat
  h3 : Nat
  h4 : Nat
  h5 : Nat
  h6 : Nat
  h7 : Nat
  deriving Repr, DecidableEq

/-- The initial hash value of FIPS 180-4 (first 32 bits of the square roots
of the first 8 primes), in decimal. -/
def sha256H0 : Hash8 :=
  ⟨1779033703, 3144134277, 1013904242, 2773480762,
   1359893119, 2600822924, 528734635, 1541459225⟩

/-- Extend the 16 message words to the 64-entry message schedule. -/
def extendW : Nat → List Nat → List Nat
  | 0, ws => ws
  | k + 1, ws =>
    let n := ws.length
    let w := w32 (smallSigma1 (ws.getD (n - 2) 0) + ws.getD (n - 7) 0 +
                  smallSigma0 (ws.getD (n - 15) 0) + ws.getD (n - 16) 0)
    extendW k (ws ++ [w])

def roundStep (st : Hash8) (kw : Nat × Nat) : Hash8 :=
  let t1 := w32 (st.h7 + bigSigma1 st.h4 + chFn st.h4 st.h5 st.h6 + kw.1 + kw.2)
  let t2 := w32 (bigSigma0 st.h0 + majFn st.h0 st.h1 st.h2)
  ⟨w32 (t1 + t2), st.h0, st.h1, st.h2, w32 (st.h3 + t1), st.h4, st.h5, st.h6⟩

def compressBlock (h : Hash8) (block : List Nat) : Hash8 :=
  let ws := extendW 48 block
  let st := (sha256K.zip ws).foldl roundStep h
  ⟨w32 (h.h0 + st.h0), w32 (h.h1 + st.h1), w32 (h.h2 + st.h2), w32 (h.h3 + st.h3),
   w32 (h.h4 + st.h4), w32 (h.h5 + st.h5), w32 (h.h6 + st.h6), w32 (h.h7 + st.h7)⟩

/-- Big-endian 64-bit length field of the padding. -/
def be64 (n : Nat) : List Nat :=
  [n / 72057594037927936 % 256, n / 281474976710656 % 256, n / 1099511627776 % 256,
   n / 4294967296 % 256, n / 16777216 % 256, n / 65536 % 256, n / 256 % 256, n % 256]

def padMessage (msg : List Nat) : List Nat :=
  let len := msg.length
  let zeros := (64 - (len + 9) % 64) % 64
  msg ++ 128 :: (List.replicate zeros 0 ++ be64 (8 * len))

def bytesToWords : List Nat → List Nat
  | a :: b :: c :: d :: rest => (a * 16777216 + b * 65536 + c * 256 + d) :: bytesToWords rest
  | _ => []

def chunksGo : Nat → List Nat → List (List Nat)
  | _, [] => []
  | 0, _ :: _ => []
  | fuel + 1, x :: xs => (x :: xs.take 63) :: chunksGo fuel (xs.drop 63)

/-- Split the padded message into 64-byte blocks. -/
def chunks64 (l : List Nat) : List (List Nat) := chunksGo l.length l

def word2bytes (n : Nat) : List Nat :=
  [n / 16777216 % 256, n / 65536 % 256, n / 256 % 256, n % 256]

def hashBytes (h : Hash8) : List Nat :=
  word2bytes h.h0 ++ word2bytes h.h1 ++ word2bytes h.h2 ++ word2bytes h.h3 ++
  word2bytes h.h4 ++ word2bytes h.h5 ++ word2bytes h.h6 ++ word2bytes h.h7

/-- SHA-256 digest of a byte list (FIPS 180-4), the model of the browser's
`crypto.subtle.digest('SHA-256', data)`. -/
def sha256 (msg : List Nat) : List Nat :=
  hashBytes (((chunks64 (padMessage msg)).map bytesToWords).foldl compressBlock sha256H0)

/-- UTF-8 bytes of one code point (model of `TextEncoder`). -/
def utf8EncodeChar (c : Char) : List Nat :=
  let n := c.toNat
  if n < 128 then [n]
  else if n < 2048 then [192 + n / 64, 128 + n % 64]
  else if n < 65536 then [224 + n / 4096, 128 + n / 64 % 64, 128 + n % 64]
  else [240 + n / 262144, 128 + n / 4096 % 64, 128 + n / 64 % 64, 128 + n % 64]

/-- Model of `new TextEncoder().encode(s)`. -/
def utf8Encode (s : String) : List Nat := (s.data.map utf8EncodeChar).flatten

/-! ## PKCE material generators (services/authService.ts)

`crypto.getRandomValues` fills a fresh `Uint8Array`; the embedding takes the
drawn bytes as an explicit argument. -/

/-- Function `generateCodeVerifier`: base64url of 32 random bytes `rv`. -/
def generateCodeVerifier (rv : List Nat) : String := ⟨base64UrlEncode rv⟩

/-- Function `generateCodeChallenge`: base64url of the SHA-256 digest of the UTF-8
bytes of the verifier. -/
def generateCodeChallenge (verifier : String) : String :=
  ⟨base64UrlEncode (sha256 (utf8Encode verifier))⟩

/-- Function `generateState`: base64url of 16 random bytes `rs`. -/
def generateState (rs : List Nat) : String := ⟨base64UrlEncode rs⟩

/-! ## Tab-scoped `sessionStorage` entries used by AuthService -/

/-- The two per-tab entries (`pkce_code_verifier`, `oauth_state`) forming a
PendingAuthAttempt; `none` means the entry is absent. -/
structure SessionStore where
  pkce_code_verifier : Option String
  oauth_state : Option String
  deriving Repr, DecidableEq

/-- JavaScript truthiness of a nullable string: `null` and `""` are falsy. -/
def optTruthy : Option String → Bool
  | none => false
  | some s => s != ""

/-! ## AuthService.initiateLoginPopup (services/authService.ts) -/

def CLIENT_ID : String := "client_HRENw26wlSsgG4HfrAGjqMMw"

def CALLBACK_URI : String := "https://send.huny.dev/api/auth/callback"

/-- One `sessionStorage` mutation, recorded in program order. -/
inductive StorageOp where
  | removeVerifier
  | removeState
  | setVerifier (v : String)
  | setState (s : String)
  deriving Repr, DecidableEq

/-- The query parameters of the constructed `/oauth/authorize` URL. -/
structure AuthorizeParams where
  response_type : String
  client_id : String
  redirect_uri : String
  scope : String
  state : String
  code_challenge : String
  code_challenge_method : String
  deriving Repr, DecidableEq

structure InitiateOutcome where
  store : SessionStore
  trace : List StorageOp
  params : AuthorizeParams
  deriving Repr, DecidableEq

/-- Function `initiateLoginPopup`, with the freshly drawn random bytes (32 for the
verifier, 16 for the state) as explicit inputs.  The source first removes both
stored entries, then generates and stores new PKCE material, then builds the
authorize URL and opens the popup (the window geometry is outside the model). -/
def initiateLoginPopup (rv rs : List Nat) (ss : SessionStore) : InitiateOutcome :=
  let ss1 : SessionStore := { ss with pkce_code_verifier := none }
  let ss2 : SessionStore := { ss1 with oauth_state := none }
  let codeVerifier := generateCodeVerifier rv
  let codeChallenge := generateCodeChallenge codeVerifier
  let state := generateState rs
  let ss3 : SessionStore := { ss2 with pkce_code_verifier := some codeVerifier }
  let ss4 : SessionStore := { ss3 with oauth_state := some state }
  { store := ss4
    trace := [.removeVerifier, .removeState, .setVerifier codeVerifier, .setState state]
    params :=
      { response_type := "code", client_id := CLIENT_ID, redirect_uri := CALLBACK_URI
        scope := "openid profile email", state := state, code_challenge := codeChallenge
        code_challenge_method := "S256" } }

/-! ## AuthService.handleCallback (services/authService.ts) -/

/-- The `code` and `state` query parameters of the callback URL
(`URLSearchParams.get` yields `null` for an absent parameter). -/
structure CallbackQuery where
  code : Option String
  state : Option String
  deriving Repr, DecidableEq

/-- The remote endpoints' answers: the token endpoint (`ok` is `response.ok`,
i.e. 2xx) and the userinfo endpoint. -/
structure CallbackEnv where
  tokenOk : Bool
  accessToken : String
  userOk : Bool
  user : String
  deriving Repr, DecidableEq

inductive CallbackError where
  | missingParams
  | stateMismatch
  | exchangeFailed
  | userInfoFailed
  deriving Repr, DecidableEq

structure CallbackOutcome where
  result : Except CallbackError (String × String)
  store : SessionStore
  tokenCalls : Nat
  userInfoCalls : Nat
  deriving Repr

/-- Function `handleCallback`: validate parameters, compare `state` with the stored
state, exchange the code, fetch userinfo, and only then remove the two
stored entries.  A thrown error leaves `sessionStorage` untouched. -/
def handleCallback (q : CallbackQuery) (env : CallbackEnv) (ss : SessionStore) : CallbackOutcome :=
  let savedState := ss.oauth_state
  let codeVerifier := ss.pkce_code_verifier
  if !(optTruthy q.code && optTruthy q.state && optTruthy codeVerifier) then
    ⟨.error .missingParams, ss, 0, 0⟩
  else if q.state ≠ savedState then
    ⟨.error .stateMismatch, ss, 0, 0⟩
  else if !env.tokenOk then
    ⟨.error .exchangeFailed, ss, 1, 0⟩
  else if !env.userOk then
    ⟨.error .userInfoFailed, ss, 1, 1⟩
  else
    ⟨.ok (env.accessToken, env.user), ⟨none, none⟩, 1, 1⟩

/-! ## Persisted `localStorage` auth entries (shared across tabs) -/

/-- The four persisted keys `auth_token`, `auth_user`, `auth_refresh_token`,
`auth_expires_at`.  The source stores `auth_expires_at` as the decimal string
of an epoch-millisecond integer and reads it back with `parseInt`; the model
keeps the integer itself. -/
structure Storage where
  auth_token : Option String
  auth_user : Option String
  auth_refresh_token : Option String
  auth_expires_at : Option Int
  deriving Repr, DecidableEq

/-- Window-level app events dispatched by the services and observed by App. -/
inductive Event where
  | tokenRefreshed (token : String)
  | authFailed
  deriving Repr, DecidableEq

/-- The token endpoint's answer to a `grant_type=refresh_token` POST.  `ok`
is `response.ok`; a network error (the `catch` branch) behaves like `ok =
false` with no stored fields read. -/
structure TokenResponse where
  ok : Bool
  access_token : String
  refresh_token : Option String
  expires_in : Option Nat
  deriving Repr, DecidableEq

namespace ApiStorage

/-- Function `refreshAccessToken` from services/apiStorage.ts.  Returns the success
flag, the updated storage, the number of token-endpoint network calls made
(0 when no refresh token is stored, else 1) and the dispatched events.
Failure paths return `false` without touching storage; clearing is the
caller's business (`fetchWithAuth`). -/
def refreshAccessToken (now : Int) (resp : TokenResponse) (st : Storage) :
    Bool × Storage × Nat × List Event :=
  match st.auth_refresh_token with
  | none => (false, st, 0, [])
  | some _ =>
    if !resp.ok then (false, st, 1, [])
    else
      let st1 : Storage := { st with auth_token := some resp.access_token }
      let st2 : Storage :=
        match resp.refresh_token with
        | some rt => { st1 with auth_refresh_token := some rt }
        | none => st1
      let st3 : Storage :=
        match resp.expires_in with
        | some e => { st2 with auth_expires_at := some (now + e * 1000) }
        | none => st2
      (true, st3, 1, [.tokenRefreshed resp.access_token])

/-- The module-level coordinator variables of services/apiStorage.ts
(`isRefreshing`, `refreshPromise`) plus instrumentation: promises are numbered
by a counter, and the model counts starts of the underlying refresh operation
and token-endpoint network calls. -/
structure RefreshState where
  isRefreshing : Bool
  refreshPromise : Option Nat
  nextPromiseId : Nat
  refreshStarts : Nat
  tokenNetworkCalls : Nat
  deriving Repr, DecidableEq

/-- The two variables are always toggled together (set in `coordinatedRefresh`,
reset in its `finally`). -/
def RefreshState.wf (rs : RefreshState) : Prop :=
  rs.isRefreshing = rs.refreshPromise.isSome

/-- One call to `coordinatedRefresh`, as the atomic step it is in the event
loop: the body has no `await`, so the flag check, the start of
`refreshAccessToken` (which issues its fetch before first suspending — only
when a refresh token is stored, hence the `hasTok` flag) and the assignment of
`refreshPromise` all happen in one slice.  Returns the promise the caller
receives. -/
def coordinatedRefresh (hasTok : Bool) (rs : RefreshState) : Nat × RefreshState :=
  match rs.isRefreshing, rs.refreshPromise with
  | true, some p => (p, rs)
  | _, _ =>
    (rs.nextPromiseId,
     { isRefreshing := true
       refreshPromise := some rs.nextPromiseId
       nextPromiseId := rs.nextPromiseId + 1
       refreshStarts := rs.refreshStarts + 1
       tokenNetworkCalls := rs.tokenNetworkCalls + cond hasTok 1 0 })

/-- The `finally` handler of the in-flight promise: reset both variables. -/
def settleRefresh (rs : RefreshState) : RefreshState :=
  { rs with isRefreshing := false, refreshPromise := none }

/-- Iterated calls (`N` of them) to `coordinatedRefresh` with no settlement in between (the
concurrent-demand schedule: e.g. several parallel requests all hitting 401 in
the same macrotask).  Returns the promises received, in call order. -/
def runConcurrentCalls (hasTok : Bool) : Nat → RefreshState → List Nat × RefreshState
  | 0, rs => ([], rs)
  | n + 1, rs =>
    let (p, rs1) := coordinatedRefresh hasTok rs
    let (ps, rs2) := runConcurrentCalls hasTok n rs1
    (p :: ps, rs2)

/-- Function `clearAuthData` from services/apiStorage.ts: remove the four keys and
dispatch `authFailed`. -/
def clearAuthData (st : Storage) : Storage × List Event :=
  (⟨none, none, none, none⟩, [.authFailed])

/-- Environment of one `fetchWithAuth` call: the HTTP status the server gives
the n-th request this call sends, the token endpoint's answer should a fresh
refresh be needed, and the current time. -/
structure FetchEnv where
  status : Nat → Nat
  tokenResp : TokenResponse
  now : Int

/-- Error `AuthError` is the only throw in `fetchWithAuth`. -/
inductive AuthError where
  | sessionExpired
  deriving Repr, DecidableEq

structure FetchOutcome where
  result : Except AuthError Nat
  storage : Storage
  refreshCalls : Nat
  tokenEndpointCalls : Nat
  sentAuth : List (Option String)
  events : List Event
  deriving Repr

/-- Function `coordinatedRefresh` as awaited by `fetchWithAuth` from an idle
coordinator, run to completion: the underlying `refreshAccessToken` runs and
the `finally` has reset the flags by resolution time.  (The interleaved view
of the same source function is `coordinatedRefresh` above.) -/
def coordinatedRefreshRun (env : FetchEnv) (st : Storage) : Bool × Storage × Nat × List Event :=
  refreshAccessToken env.now env.tokenResp st

/-- Function `fetchWithAuth`, with the `retry` flag encoded as remaining retry fuel
(`true` = 1, `false` = 0 — the source's only recursive call passes
`retry = false`).  `attempt` numbers the requests this call sends so `env`
can answer each. -/
def fetchWithAuthFuel (env : FetchEnv) : Nat → Storage → Nat → FetchOutcome
  | 0, st, attempt =>
    -- `response.status === 401 && retry` is false: the response is returned as-is
    ⟨.ok (env.status attempt), st, 0, 0, [st.auth_token], []⟩
  | fuel + 1, st, attempt =>
    let token := st.auth_token
    let status := env.status attempt
    if status = 401 then
      match coordinatedRefreshRun env st with
      | (true, st1, tcalls, evs) =>
        let inner := fetchWithAuthFuel env fuel st1 (attempt + 1)
        ⟨inner.result, inner.storage, inner.refreshCalls + 1,
         tcalls + inner.tokenEndpointCalls, token :: inner.sentAuth, evs ++ inner.events⟩
      | (false, st1, tcalls, evs) =>
        let (st2, evs2) := clearAuthData st1
        ⟨.error .sessionExpired, st2, 1, tcalls, [token], evs ++ evs2⟩
    else
      ⟨.ok status, st, 0, 0, [token], []⟩

/-- Wrapper `fetchWithAuth(url, options, retry)` (the url/options are opaque to the
model; the bearer header attached to each sent request is recorded in
`sentAuth`). -/
def fetchWithAuth (env : FetchEnv) (st : Storage) (retry : Bool) : FetchOutcome :=
  fetchWithAuthFuel env (cond retry 1 0) st 0

end ApiStorage

/-! ## The main application (App.tsx) -/

inductive AppView where
  | LOGIN
  | ADMIN_DASHBOARD
  | GUEST_HOME
  | PUBLIC_DOWNLOAD
  | CALLBACK
  deriving Repr, DecidableEq

structure AuthState where
  isAuthenticated : Bool
  isGuest : Bool
  token : Option String
  user : Option String
  deriving Repr, DecidableEq

/-- The payload of a window `message` event (`event.data`), when it is one of
the auth messages. -/
inductive MsgData where
  | authSuccess (token : String) (user : String) (refreshToken : Option String)
      (expiresIn : Option Nat)
  | authError (err : String)
  deriving Repr, DecidableEq

/-- A window `message` event: the browser-attached sender origin and the data. -/
structure MessageEvent where
  origin : String
  data : Option MsgData
  deriving Repr, DecidableEq

/-- Observable side effects of the message handler besides state changes. -/
inductive UiEffect where
  | alert (msg : String)
  deriving Repr, DecidableEq

structure MessageOutcome where
  storage : Storage
  auth : AuthState
  view : AppView
  effects : List UiEffect
  deriving Repr, DecidableEq

/-- The origin serving the app (the `redirect_uri` host). -/
def selfOrigin : String := "https://send.huny.dev"

namespace AppMain

/-- Handler `handleMessage` from App.tsx (main-app context): acts on
`AUTH_SUCCESS` / `AUTH_ERROR` data.  The source reads only `event.data`;
`event.origin` is never consulted. -/
def handleMessage (now : Int) (ev : MessageEvent) (st : Storage) (auth : AuthState)
    (view : AppView) : MessageOutcome :=
  match ev.data with
  | some (.authSuccess token user refreshToken expiresIn) =>
    let st1 : Storage := { st with auth_token := some token, auth_user := some user }
    let st2 : Storage :=
      match refreshToken with
      | some rt => { st1 with auth_refresh_token := some rt }
      | none => st1
    let st3 : Storage :=
      match expiresIn with
      | some e => { st2 with auth_expires_at := some (now + e * 1000) }
      | none => st2
    ⟨st3, ⟨true, false, some token, some user⟩, .ADMIN_DASHBOARD, []⟩
  | some (.authError err) => ⟨st, auth, view, [.alert ("Authentication failed: " ++ err)]⟩
  | none => ⟨st, auth, view, []⟩

structure AppState where
  storage : Storage
  auth : AuthState
  view : AppView
  deriving Repr, DecidableEq

/-- App.tsx's `refreshAccessToken`.  `resp = none` models a thrown network
error (the `catch` branch); otherwise `resp.ok` is `response.ok`.  Absent
refresh token: return `false`, nothing else.  Non-2xx: remove the four keys,
set the auth state unauthenticated, show the login view, return `false`.
Success: store the new tokens and expiry, keep the identity, return `true`. -/
def refreshAccessToken (now : Int) (resp : Option TokenResponse) (s : AppState) :
    Bool × AppState :=
  match s.storage.auth_refresh_token with
  | none => (false, s)
  | some _ =>
    match resp with
    | none => (false, s)
    | some r =>
      if !r.ok then
        (false,
         { storage := ⟨none, none, none, none⟩
           auth := ⟨false, false, none, none⟩
           view := .LOGIN })
      else
        let st1 : Storage := { s.storage with auth_token := some r.access_token }
        let st2 : Storage :=
          match r.refresh_token with
          | some rt => { st1 with auth_refresh_token := some rt }
          | none => st1
        let st3 : Storage :=
          match r.expires_in with
          | some e => { st2 with auth_expires_at := some (now + e * 1000) }
          | none => st2
        (true, { s with storage := st3, auth := { s.auth with token := some r.access_token } })

/-- The single pending refresh timer (`refreshTimeoutRef`); the model keeps
the armed delay as the handle. -/
structure TimerState where
  refreshTimeout : Option Int
  deriving Repr, DecidableEq

def REFRESH_BUFFER_MS : Int := 5 * 60 * 1000

/-- What one `scheduleTokenRefresh` invocation does after cancelling the
previous timer. -/
inductive ScheduleAction where
  | noSchedule
  | immediateRefresh
  | armed (delay : Int)
  deriving Repr, DecidableEq

/-- Function `scheduleTokenRefresh` from App.tsx: cancel any existing timer, then —
with a stored expiry — compute `timeUntilRefresh = expiresAt - now -
REFRESH_BUFFER_MS` and either refresh immediately (≤ 0) or arm one timer for
that delay. -/
def scheduleTokenRefresh (st : Storage) (now : Int) (ts : TimerState) :
    TimerState × ScheduleAction :=
  let cleared : TimerState := ⟨none⟩
  match st.auth_expires_at with
  | none => (cleared, .noSchedule)
  | some expiresAt =>
    let timeUntilExpiry := expiresAt - now
    let timeUntilRefresh := timeUntilExpiry - REFRESH_BUFFER_MS
    if timeUntilRefresh ≤ 0 then (cleared, .immediateRefresh)
    else ({ refreshTimeout := some timeUntilRefresh }, .armed timeUntilRefresh)

/-- The continuation `refreshAccessToken().then(success => { if (success)
scheduleTokenRefresh(); })` run when a scheduled refresh fires (immediately
or from the timer).  Returns the app state, the timer state, the
schedule action taken afterwards (`none` when the refresh failed — the
failure is terminal, nothing is re-armed or retried) and the number of
refresh attempts performed (always exactly one). -/
def runRefreshOnce (now : Int) (resp : Option TokenResponse) (s : AppState) :
    AppState × TimerState × Option ScheduleAction × Nat :=
  let (success, s1) := refreshAccessToken now resp s
  if success then
    let (ts1, act) := scheduleTokenRefresh s1.storage now ⟨none⟩
    (s1, ts1, some act, 1)
  else
    (s1, ⟨none⟩, none, 1)

end AppMain

/-! ## Properties of the base64url encoder -/

theorem b64inv_round : ∀ n, n < 64 → b64inv (urlMapChar (b64char n)) = n := by decide

theorem urlMap_b64char_ne_pad : ∀ n, n < 64 → (urlMapChar (b64char n)) ≠ '=' := by decide

theorem urlSafe_b64char : ∀ n, n < 64 → urlSafeChar (urlMapChar (b64char n)) = true := by decide

theorem filter_ne_pad_cons (c : Char) (hc : c ≠ '=') (l : List Char) :
    (c :: l).filter (fun x => x != '=') = c :: l.filter (fun x => x != '=') := by
  simp [List.filter_cons, hc]

theorem filter_pad_cons (l : List Char) :
    ('=' :: l).filter (fun x => x != '=') = l.filter (fun x => x != '=') := by
  simp [List.filter_cons]

theorem urlMapChar_pad : urlMapChar '=' = '=' := rfl

theorem base64UrlDecode_encode (bs : List Nat) (h : ∀ b ∈ bs, b < 256) :
    base64UrlDecode (base64UrlEncode bs) = bs := by
  induction bs using base64Chunks.induct with
  | case1 b1 b2 b3 rest ih =>
    have hb1 : b1 < 256 := h b1 (by simp)
    have hb2 : b2 < 256 := h b2 (by simp)
    have hb3 : b3 < 256 := h b3 (by simp)
    have d1 : b1 / 4 < 64 := by omega
    have d2 : (b1 % 4) * 16 + b2 / 16 < 64 := by omega
    have d3 : (b2 % 16) * 4 + b3 / 64 < 64 := by omega
    have d4 : b3 % 64 < 64 := by omega
    have ihh : base64UrlDecode (base64UrlEncode rest) = rest :=
      ih (fun b hb => h b (by simp [hb]))
    unfold base64UrlEncode at ihh ⊢
    simp only [base64Chunks, List.map_cons]
    rw [filter_ne_pad_cons _ (urlMap_b64char_ne_pad _ d1),
        filter_ne_pad_cons _ (urlMap_b64char_ne_pad _ d2),
        filter_ne_pad_cons _ (urlMap_b64char_ne_pad _ d3),
        filter_ne_pad_cons _ (urlMap_b64char_ne_pad _ d4)]
    simp only [base64UrlDecode, b64inv_round _ d1, b64inv_round _ d2,
      b64inv_round _ d3, b64inv_round _ d4, ihh, List.cons.injEq]
    refine ⟨by omega, by omega, by omega, by trivial⟩
  | case2 b1 b2 =>
    have hb1 : b1 < 256 := h b1 (by simp)
    have hb2 : b2 < 256 := h b2 (by simp)
    have d1 : b1 / 4 < 64 := by omega
    have d2 : (b1 % 4) * 16 + b2 / 16 < 64 := by omega
    have d3 : (b2 % 16) * 4 < 64 := by omega
    unfold base64UrlEncode
    simp only [base64Chunks, List.map_cons, List.map_nil, urlMapChar_pad]
    rw [filter_ne_pad_cons _ (urlMap_b64char_ne_pad _ d1),
        filter_ne_pad_cons _ (urlMap_b64char_ne_pad _ d2),
        filter_ne_pad_cons _ (urlMap_b64char_ne_pad _ d3),
        filter_pad_cons, List.filter_nil]
    simp only [base64UrlDecode, b64inv_round _ d1, b64inv_round _ d2,
      b64inv_round _ d3, List.cons.injEq]
    refine ⟨by omega, by omega, by trivial⟩
  | case3 b1 =>
    have hb1 : b1 < 256 := h b1 (by simp)
    have d1 : b1 / 4 < 64 := by omega
    have d2 : (b1 % 4) * 16 < 64 := by omega
    unfold base64UrlEncode
    simp only [base64Chunks, List.map_cons, List.map_nil, urlMapChar_pad]
    rw [filter_ne_pad_cons _ (urlMap_b64char_ne_pad _ d1),
        filter_ne_pad_cons _ (urlMap_b64char_ne_pad _ d2),
        filter_pad_cons, filter_pad_cons, List.filter_nil]
    simp only [base64UrlDecode, b64inv_round _ d1, b64inv_round _ d2, List.cons.injEq]
    refine ⟨by omega, by trivial⟩
  | case4 =>
    rfl


theorem urlSafe_base64UrlEncode (bs : List Nat) (h : ∀ b ∈ bs, b < 256) :
    ∀ c ∈ base64UrlEncode bs, urlSafeChar c = true := by
  induction bs using base64Chunks.induct with
  | case1 b1 b2 b3 rest ih =>
    have hb1 : b1 < 256 := h b1 (by simp)
    have hb2 : b2 < 256 := h b2 (by simp)
    have hb3 : b3 < 256 := h b3 (by simp)
    have d1 : b1 / 4 < 64 := by omega
    have d2 : (b1 % 4) * 16 + b2 / 16 < 64 := by omega
    have d3 : (b2 % 16) * 4 + b3 / 64 < 64 := by omega
    have d4 : b3 % 64 < 64 := by omega
    have ihh := ih (fun b hb => h b (by simp [hb]))
    unfold base64UrlEncode at ihh ⊢
    simp only [base64Chunks, List.map_cons]
    rw [filter_ne_pad_cons _ (urlMap_b64char_ne_pad _ d1),
        filter_ne_pad_cons _ (urlMap_b64char_ne_pad _ d2),
        filter_ne_pad_cons _ (urlMap_b64char_ne_pad _ d3),
        filter_ne_pad_cons _ (urlMap_b64char_ne_pad _ d4)]
    intro c hc
    simp only [List.mem_cons] at hc
    rcases hc with rfl | rfl | rfl | rfl | hc
    · exact urlSafe_b64char _ d1
    · exact urlSafe_b64char _ d2
    · exact urlSafe_b64char _ d3
    · exact urlSafe_b64char _ d4
    · exact ihh c hc
  | case2 b1 b2 =>
    have hb1 : b1 < 256 := h b1 (by simp)
    have hb2 : b2 < 256 := h b2 (by simp)
    have d1 : b1 / 4 < 64 := by omega
    have d2 : (b1 % 4) * 16 + b2 / 16 < 64 := by omega
    have d3 : (b2 % 16) * 4 < 64 := by omega
    unfold base64UrlEncode
    simp only [base64Chunks, List.map_cons, List.map_nil, urlMapChar_pad]
    rw [filter_ne_pad_cons _ (urlMap_b64char_ne_pad _ d1),
        filter_ne_pad_cons _ (urlMap_b64char_ne_pad _ d2),
        filter_ne_pad_cons _ (urlMap_b64char_ne_pad _ d3),
        filter_pad_cons, List.filter_nil]
    intro c hc
    simp only [List.mem_cons, List.not_mem_nil, or_false] at hc
    rcases hc with rfl | rfl | rfl
    · exact urlSafe_b64char _ d1
    · exact urlSafe_b64char _ d2
    · exact urlSafe_b64char _ d3
  | case3 b1 =>
    have hb1 : b1 < 256 := h b1 (by simp)
    have d1 : b1 / 4 < 64 := by omega
    have d2 : (b1 % 4) * 16 < 64 := by omega
    unfold base64UrlEncode
    simp only [base64Chunks, List.map_cons, List.map_nil, urlMapChar_pad]
    rw [filter_ne_pad_cons _ (urlMap_b64char_ne_pad _ d1),
        filter_ne_pad_cons _ (urlMap_b64char_ne_pad _ d2),
        filter_pad_cons, filter_pad_cons, List.filter_nil]
    intro c hc
    simp only [List.mem_cons, List.not_mem_nil, or_false] at hc
    rcases hc with rfl | rfl
    · exact urlSafe_b64char _ d1
    · exact urlSafe_b64char _ d2
  | case4 =>
    intro c hc
    simp [base64UrlEncode, base64Chunks] at hc

theorem pad_not_mem_base64UrlEncode (bs : List Nat) : '=' ∉ base64UrlEncode bs := by
  intro hmem
  rw [base64UrlEncode] at hmem
  have := (List.mem_filter.mp hmem).2
  simp at this


end SendHuny
namespace SendHuny

/-- C5: every generated PKCE triple has challenge = base64url(SHA-256(UTF-8
verifier)) without padding; the verifier is base64url of the 32 random bytes
and the state base64url of the 16 random bytes, both URL-safe and unpadded,
and both encodings are injective on byte lists (so the 256 / 128 bits of
randomness are preserved). -/
theorem C5_pkce_triple (rv rs : List Nat)
    (hrvlen : rv.length = 32) (hrv : ∀ b ∈ rv, b < 256)
    (hrslen : rs.length = 16) (hrs : ∀ b ∈ rs, b < 256) :
    generateCodeChallenge (generateCodeVerifier rv)
        = ⟨base64UrlEncode (sha256 (utf8Encode (generateCodeVerifier rv)))⟩ ∧
    generateCodeVerifier rv = ⟨base64UrlEncode rv⟩ ∧
    generateState rs = ⟨base64UrlEncode rs⟩ ∧
    (∀ c ∈ (generateCodeVerifier rv).data, urlSafeChar c = true) ∧
    (∀ c ∈ (generateState rs).data, urlSafeChar c = true) ∧
    '=' ∉ (generateCodeVerifier rv).data ∧
    '=' ∉ (generateCodeChallenge (generateCodeVerifier rv)).data ∧
    '=' ∉ (generateState rs).data ∧
    (∀ rv2, (∀ b ∈ rv2, b < 256) → generateCodeVerifier rv2 = generateCodeVerifier rv →
      rv2 = rv) ∧
    (∀ rs2, (∀ b ∈ rs2, b < 256) → generateState rs2 = generateState rs → rs2 = rs) := by
  refine ⟨rfl, rfl, rfl, ?_, ?_, ?_, ?_, ?_, ?_, ?_⟩
  · exact urlSafe_base64UrlEncode rv hrv
  · exact urlSafe_base64UrlEncode rs hrs
  · exact pad_not_mem_base64UrlEncode rv
  · exact pad_not_mem_base64UrlEncode (sha256 (utf8Encode (generateCodeVerifier rv)))
  · exact pad_not_mem_base64UrlEncode rs
  · intro rv2 hrv2 heq
    have hl : base64UrlEncode rv2 = base64UrlEncode rv := congrArg String.data heq
    calc rv2 = base64UrlDecode (base64UrlEncode rv2) := (base64UrlDecode_encode rv2 hrv2).symm
      _ = base64UrlDecode (base64UrlEncode rv) := by rw [hl]
      _ = rv := base64UrlDecode_encode rv hrv
  · intro rs2 hrs2 heq
    have hl : base64UrlEncode rs2 = base64UrlEncode rs := congrArg String.data heq
    calc rs2 = base64UrlDecode (base64UrlEncode rs2) := (base64UrlDecode_encode rs2 hrs2).symm
      _ = base64UrlDecode (base64UrlEncode rs) := by rw [hl]
      _ = rs := base64UrlDecode_encode rs hrs

/-- Witness for C5 at concrete random bytes 0..31 and 0..15. -/
theorem C5_pkce_triple_witness :
    '=' ∉ (generateCodeVerifier (List.range 32)).data ∧
    (List.range 32).length = 32 ∧ (List.range 16).length = 16 :=
  ⟨(C5_pkce_triple (List.range 32) (List.range 16) (by decide) (by decide) (by decide)
      (by decide)).2.2.2.2.2.1, by decide, by decide⟩

end SendHuny
namespace SendHuny

theorem runCalls_inflight (hasTok : Bool) (p : Nat) :
    ∀ (n : Nat) (rs : ApiStorage.RefreshState), rs.isRefreshing = true →
      rs.refreshPromise = some p →
      ApiStorage.runConcurrentCalls hasTok n rs = (List.replicate n p, rs) := by
  intro n
  induction n with
  | zero => intro rs h1 h2; simp [ApiStorage.runConcurrentCalls]
  | succ m ih =>
    intro rs h1 h2
    simp [ApiStorage.runConcurrentCalls, ApiStorage.coordinatedRefresh, h1, h2, ih rs h1 h2,
      List.replicate_succ]

/-- C1 single-flight. -/
theorem C1_single_flight :
    (∀ (hasTok : Bool) (rs : ApiStorage.RefreshState) (p : Nat),
      rs.wf → rs.refreshPromise = some p →
      ApiStorage.coordinatedRefresh hasTok rs = (p, rs)) ∧
    (∀ (hasTok : Bool) (rs : ApiStorage.RefreshState) (N : Nat),
      rs.refreshPromise = none → 0 < N →
      (ApiStorage.runConcurrentCalls hasTok N rs).1 = List.replicate N rs.nextPromiseId ∧
      (ApiStorage.runConcurrentCalls hasTok N rs).2.refreshStarts = rs.refreshStarts + 1 ∧
      (ApiStorage.runConcurrentCalls hasTok N rs).2.tokenNetworkCalls
        = rs.tokenNetworkCalls + cond hasTok 1 0) := by
  constructor
  · intro hasTok rs p hwf hp
    have h1 : rs.isRefreshing = true := by
      rw [ApiStorage.RefreshState.wf, hp] at hwf; simpa using hwf
    simp [ApiStorage.coordinatedRefresh, h1, hp]
  · intro hasTok rs N hp hN
    match N, hN with
    | n + 1, _ =>
      have hstart : ApiStorage.coordinatedRefresh hasTok rs =
          (rs.nextPromiseId,
           { isRefreshing := true
             refreshPromise := some rs.nextPromiseId
             nextPromiseId := rs.nextPromiseId + 1
             refreshStarts := rs.refreshStarts + 1
             tokenNetworkCalls := rs.tokenNetworkCalls + cond hasTok 1 0 }) := by
        simp [ApiStorage.coordinatedRefresh, hp]
      have hrest := runCalls_inflight hasTok rs.nextPromiseId n
        { isRefreshing := true
          refreshPromise := some rs.nextPromiseId
          nextPromiseId := rs.nextPromiseId + 1
          refreshStarts := rs.refreshStarts + 1
          tokenNetworkCalls := rs.tokenNetworkCalls + cond hasTok 1 0 } rfl rfl
      simp [ApiStorage.runConcurrentCalls, hstart, hrest, List.replicate]

/-- Witness for C1 at a concrete idle coordinator and three concurrent calls. -/
theorem C1_single_flight_witness :
    (ApiStorage.runConcurrentCalls true 3 ⟨false, none, 0, 0, 0⟩).1 = List.replicate 3 0 ∧
    (ApiStorage.runConcurrentCalls true 3 ⟨false, none, 0, 0, 0⟩).2.tokenNetworkCalls = 1 := by
  have h := C1_single_flight.2 true ⟨false, none, 0, 0, 0⟩ 3 rfl (by decide)
  exact ⟨h.1, h.2.2⟩

end SendHuny
namespace SendHuny

/-- C7: 401 with retry = true → exactly one coordinated refresh; on success
one re-issue with no further retry; on failure cleared storage and a thrown
session-expired `AuthError`. -/
theorem C7_fetchWithAuth_retry (env : ApiStorage.FetchEnv) (st : Storage)
    (h401 : env.status 0 = 401) :
    (∀ rt, st.auth_refresh_token = some rt → env.tokenResp.ok = true →
      (ApiStorage.fetchWithAuth env st true).refreshCalls = 1 ∧
      (ApiStorage.fetchWithAuth env st true).sentAuth.length = 2 ∧
      (ApiStorage.fetchWithAuth env st true).result = Except.ok (env.status 1) ∧
      (ApiStorage.fetchWithAuth env st true).tokenEndpointCalls = 1) ∧
    (st.auth_refresh_token = none ∨ env.tokenResp.ok = false →
      (ApiStorage.fetchWithAuth env st true).result
        = Except.error ApiStorage.AuthError.sessionExpired ∧
      (ApiStorage.fetchWithAuth env st true).storage = ⟨none, none, none, none⟩ ∧
      (ApiStorage.fetchWithAuth env st true).refreshCalls = 1 ∧
      (ApiStorage.fetchWithAuth env st true).events.getLast? = some Event.authFailed) := by
  constructor
  · intro rt hrt hok
    simp [ApiStorage.fetchWithAuth, ApiStorage.fetchWithAuthFuel,
      ApiStorage.coordinatedRefreshRun, ApiStorage.refreshAccessToken, h401, hrt, hok]
  · intro hfail
    rcases hfail with hrt | hok
    · simp [ApiStorage.fetchWithAuth, ApiStorage.fetchWithAuthFuel,
        ApiStorage.coordinatedRefreshRun, ApiStorage.refreshAccessToken, h401, hrt,
        ApiStorage.clearAuthData]
    · cases hcase : st.auth_refresh_token with
      | none =>
        simp [ApiStorage.fetchWithAuth, ApiStorage.fetchWithAuthFuel,
          ApiStorage.coordinatedRefreshRun, ApiStorage.refreshAccessToken, h401, hcase,
          ApiStorage.clearAuthData]
      | some rt =>
        simp [ApiStorage.fetchWithAuth, ApiStorage.fetchWithAuthFuel,
          ApiStorage.coordinatedRefreshRun, ApiStorage.refreshAccessToken, h401, hcase, hok,
          ApiStorage.clearAuthData]

/-- Witness for C7: a 401 followed by a successful refresh and a 200 retry. -/
theorem C7_fetchWithAuth_retry_witness :
    (ApiStorage.fetchWithAuth
        ⟨fun n => if n = 0 then 401 else 200, ⟨true, "newTok", none, none⟩, 0⟩
        ⟨some "old", some "u", some "rt", none⟩ true).refreshCalls = 1 ∧
    (ApiStorage.fetchWithAuth
        ⟨fun n => if n = 0 then 401 else 200, ⟨true, "newTok", none, none⟩, 0⟩
        ⟨some "old", some "u", some "rt", none⟩ true).result = Except.ok 200 := by
  have h := (C7_fetchWithAuth_retry
      ⟨fun n => if n = 0 then 401 else 200, ⟨true, "newTok", none, none⟩, 0⟩
      ⟨some "old", some "u", some "rt", none⟩ rfl).1 "rt" rfl rfl
  exact ⟨h.1, h.2.2.1⟩

/-- C10: with retry = false a 401 is surfaced unmodified — no refresh, no
clearing, no throw. -/
theorem C10_no_retry_passthrough (env : ApiStorage.FetchEnv) (st : Storage)
    (h401 : env.status 0 = 401) :
    (ApiStorage.fetchWithAuth env st false).result = Except.ok 401 ∧
    (ApiStorage.fetchWithAuth env st false).storage = st ∧
    (ApiStorage.fetchWithAuth env st false).refreshCalls = 0 ∧
    (ApiStorage.fetchWithAuth env st false).tokenEndpointCalls = 0 ∧
    (ApiStorage.fetchWithAuth env st false).events = [] := by
  simp [ApiStorage.fetchWithAuth, ApiStorage.fetchWithAuthFuel, h401]

/-- Witness for C10 at a server that always answers 401. -/
theorem C10_no_retry_passthrough_witness :
    (ApiStorage.fetchWithAuth ⟨fun _ => 401, ⟨true, "t", none, none⟩, 0⟩
        ⟨some "tok", none, some "rt", none⟩ false).result = Except.ok 401 :=
  (C10_no_retry_passthrough ⟨fun _ => 401, ⟨true, "t", none, none⟩, 0⟩
    ⟨some "tok", none, some "rt", none⟩ rfl).1

end SendHuny
namespace SendHuny

/-- C8: rescheduling cancels the previous timer (the outcome never depends on
it); with a stored expiry the delay is expiresAt - now - 5 min, with an
immediate refresh and no timer when ≤ 0 and exactly one armed timer for that
delay otherwise. -/
theorem C8_scheduleTokenRefresh (st : Storage) (now : Int) (ts : AppMain.TimerState) :
    AppMain.scheduleTokenRefresh st now ts = AppMain.scheduleTokenRefresh st now ⟨none⟩ ∧
    (∀ expiresAt, st.auth_expires_at = some expiresAt →
      (expiresAt - now - AppMain.REFRESH_BUFFER_MS ≤ 0 →
        AppMain.scheduleTokenRefresh st now ts = (⟨none⟩, .immediateRefresh)) ∧
      (0 < expiresAt - now - AppMain.REFRESH_BUFFER_MS →
        AppMain.scheduleTokenRefresh st now ts =
          (⟨some (expiresAt - now - AppMain.REFRESH_BUFFER_MS)⟩,
           .armed (expiresAt - now - AppMain.REFRESH_BUFFER_MS)))) := by
  refine ⟨rfl, ?_⟩
  intro expiresAt hexp
  constructor
  · intro hle
    simp [AppMain.scheduleTokenRefresh, hexp, hle]
  · intro hgt
    have : ¬(expiresAt - now - AppMain.REFRESH_BUFFER_MS ≤ 0) := by omega
    simp [AppMain.scheduleTokenRefresh, hexp, this]

/-- Witness for C8: a token with expires_in = 3600 s received now arms a
timer for 3300000 ms. -/
theorem C8_scheduleTokenRefresh_witness :
    AppMain.scheduleTokenRefresh ⟨some "t", some "u", some "rt", some 3600000⟩ 0 ⟨some 5⟩ =
      (⟨some 3300000⟩, .armed 3300000) :=
  ((C8_scheduleTokenRefresh ⟨some "t", some "u", some "rt", some 3600000⟩ 0 ⟨some 5⟩).2
    3600000 rfl).2 (by norm_num [AppMain.REFRESH_BUFFER_MS])

/-- C9: initiateLoginPopup clears the stored PendingAuthAttempt before
generating and storing fresh PKCE material: the outcome never depends on the
previous entries, the removes precede the sets, and the stored values and
authorize-URL parameters are exactly the fresh ones. -/
theorem C9_initiate_clears_stale (rv rs : List Nat) (ss : SessionStore) :
    initiateLoginPopup rv rs ss = initiateLoginPopup rv rs ⟨none, none⟩ ∧
    (initiateLoginPopup rv rs ss).store =
      ⟨some (generateCodeVerifier rv), some (generateState rs)⟩ ∧
    (initiateLoginPopup rv rs ss).params.state = generateState rs ∧
    (initiateLoginPopup rv rs ss).params.code_challenge
      = generateCodeChallenge (generateCodeVerifier rv) ∧
    (initiateLoginPopup rv rs ss).trace =
      [.removeVerifier, .removeState, .setVerifier (generateCodeVerifier rv),
       .setState (generateState rs)] :=
  ⟨rfl, rfl, rfl, rfl, rfl⟩

/-- C2 counterexample: a state-mismatch callback leaves the stored
PendingAuthAttempt (verifier "v", state "s1") in place. -/
theorem C2_counterexample :
    (handleCallback ⟨some "c", some "s2"⟩ ⟨true, "tok", true, "user"⟩
        ⟨some "v", some "s1"⟩).result = Except.error CallbackError.stateMismatch ∧
    (handleCallback ⟨some "c", some "s2"⟩ ⟨true, "tok", true, "user"⟩
        ⟨some "v", some "s1"⟩).store = ⟨some "v", some "s1"⟩ :=
  ⟨rfl, rfl⟩

/-- C2 amended: the PendingAuthAttempt is deleted exactly on the success
path; every failure path leaves sessionStorage untouched. -/
theorem C2_amended_cleanup (q : CallbackQuery) (env : CallbackEnv) (ss : SessionStore) :
    (∀ v, (handleCallback q env ss).result = Except.ok v →
      (handleCallback q env ss).store = ⟨none, none⟩) ∧
    (∀ e, (handleCallback q env ss).result = Except.error e →
      (handleCallback q env ss).store = ss) := by
  unfold handleCallback
  dsimp only
  split
  · simp
  · split
    · simp
    · split
      · simp
      · split
        · simp
        · simp

/-- Witness for C2 amended: a fully successful callback deletes both entries. -/
theorem C2_amended_cleanup_witness :
    (handleCallback ⟨some "c", some "s1"⟩ ⟨true, "tok", true, "user"⟩
        ⟨some "v", some "s1"⟩).store = ⟨none, none⟩ :=
  (C2_amended_cleanup ⟨some "c", some "s1"⟩ ⟨true, "tok", true, "user"⟩
      ⟨some "v", some "s1"⟩).1 ("tok", "user") rfl

/-- C4 counterexample: with a PendingAuthAttempt stored and a differing state
but an absent `code`, the callback fails with the missing-parameters error,
not StateMismatch (though still with no token call). -/
theorem C4_counterexample :
    (handleCallback ⟨none, some "s2"⟩ ⟨true, "tok", true, "user"⟩
        ⟨some "v", some "s1"⟩).result = Except.error CallbackError.missingParams ∧
    (Except.error CallbackError.missingParams
        ≠ (Except.error CallbackError.stateMismatch : Except CallbackError (String × String))) ∧
    (handleCallback ⟨none, some "s2"⟩ ⟨true, "tok", true, "user"⟩
        ⟨some "v", some "s1"⟩).tokenCalls = 0 :=
  ⟨rfl, by simp, rfl⟩

/-- C4 amended: when code, state and the stored attempt are all present (and
non-empty) and the received state differs from the stored state, the result
is StateMismatch and no token-endpoint call is made. -/
theorem C4_amended_state_mismatch (q : CallbackQuery) (env : CallbackEnv) (ss : SessionStore)
    (c s v : String) (hc : q.code = some c) (hcne : c ≠ "")
    (hs : q.state = some s) (hsne : s ≠ "")
    (hv : ss.pkce_code_verifier = some v) (hvne : v ≠ "")
    (hmm : q.state ≠ ss.oauth_state) :
    (handleCallback q env ss).result = Except.error CallbackError.stateMismatch ∧
    (handleCallback q env ss).tokenCalls = 0 := by
  unfold handleCallback
  have h1 : optTruthy q.code = true := by simp [hc, optTruthy, hcne]
  have h2 : optTruthy q.state = true := by simp [hs, optTruthy, hsne]
  have h3 : optTruthy ss.pkce_code_verifier = true := by simp [hv, optTruthy, hvne]
  simp [h1, h2, h3, hmm]

/-- Witness for C4 amended at `state="s2"` received, `state="s1"` stored. -/
theorem C4_amended_state_mismatch_witness :
    (handleCallback ⟨some "c", some "s2"⟩ ⟨true, "tok", true, "user"⟩
        ⟨some "v", some "s1"⟩).tokenCalls = 0 :=
  (C4_amended_state_mismatch ⟨some "c", some "s2"⟩ ⟨true, "tok", true, "user"⟩
      ⟨some "v", some "s1"⟩ "c" "s2" "v" rfl (by decide) rfl (by decide) rfl (by decide)
      (by decide)).2

end SendHuny
namespace SendHuny

/-- C3 (code evaluated at the failing input): the main app's message handler
never consults the event origin — an AUTH_SUCCESS message from a foreign
origin is persisted and authenticates the app, instead of being discarded. -/
theorem C3_cross_origin_message_accepted :
    ("https://evil.example" ≠ selfOrigin) ∧
    (AppMain.handleMessage 0
        ⟨"https://evil.example", some (.authSuccess "t" "u" none none)⟩
        ⟨none, none, none, none⟩ ⟨false, false, none, none⟩ .LOGIN).storage.auth_token
      = some "t" ∧
    (AppMain.handleMessage 0
        ⟨"https://evil.example", some (.authSuccess "t" "u" none none)⟩
        ⟨none, none, none, none⟩ ⟨false, false, none, none⟩ .LOGIN).auth.isAuthenticated
      = true ∧
    (AppMain.handleMessage 0
        ⟨"https://evil.example", some (.authSuccess "t" "u" none none)⟩
        ⟨none, none, none, none⟩ ⟨false, false, none, none⟩ .LOGIN).view
      = .ADMIN_DASHBOARD :=
  ⟨by decide, rfl, rfl, rfl⟩

/-- C6 counterexample: with the stored refresh token absent, the app-level
refresh returns false leaving the persisted session (auth_token "t") intact
and the view unchanged — nothing is cleared or signalled. -/
theorem C6_counterexample :
    AppMain.refreshAccessToken 0 (some ⟨true, "na", none, none⟩)
        ⟨⟨some "t", some "u", none, some 99⟩, ⟨true, false, some "t", some "u"⟩,
         .ADMIN_DASHBOARD⟩
      = (false,
         ⟨⟨some "t", some "u", none, some 99⟩, ⟨true, false, some "t", some "u"⟩,
          .ADMIN_DASHBOARD⟩) ∧
    (⟨⟨some "t", some "u", none, some 99⟩, ⟨true, false, some "t", some "u"⟩,
      .ADMIN_DASHBOARD⟩ : AppMain.AppState).storage.auth_token ≠ none :=
  ⟨rfl, by decide⟩

/-- C6 amended: a non-2xx token answer clears the session and transitions to
the unauthenticated login view; an absent refresh token merely fails with
nothing cleared; either failure is terminal — the continuation performs the
one refresh attempt and re-arms nothing. -/
theorem C6_amended_refresh_failure (now : Int) (resp : Option TokenResponse)
    (s : AppMain.AppState) :
    (s.storage.auth_refresh_token = none →
      AppMain.refreshAccessToken now resp s = (false, s)) ∧
    (∀ rt r, s.storage.auth_refresh_token = some rt → resp = some r → r.ok = false →
      AppMain.refreshAccessToken now resp s =
        (false, ⟨⟨none, none, none, none⟩, ⟨false, false, none, none⟩, .LOGIN⟩)) ∧
    ((AppMain.refreshAccessToken now resp s).1 = false →
      AppMain.runRefreshOnce now resp s =
        ((AppMain.refreshAccessToken now resp s).2, ⟨none⟩, none, 1)) := by
  refine ⟨?_, ?_, ?_⟩
  · intro hnone
    simp [AppMain.refreshAccessToken, hnone]
  · intro rt r hrt hresp hok
    simp [AppMain.refreshAccessToken, hrt, hresp, hok]
  · intro hfail
    unfold AppMain.runRefreshOnce
    cases heq : AppMain.refreshAccessToken now resp s with
    | mk success s1 =>
      rw [heq] at hfail
      simp at hfail
      subst hfail
      simp

/-- Witness for C6 amended: a 401-answering token endpoint clears everything
and shows the login view, with exactly one attempt and no re-arm. -/
theorem C6_amended_refresh_failure_witness :
    AppMain.refreshAccessToken 0 (some ⟨false, "x", none, none⟩)
        ⟨⟨some "t", some "u", some "rt", some 99⟩, ⟨true, false, some "t", some "u"⟩,
         .ADMIN_DASHBOARD⟩
      = (false, ⟨⟨none, none, none, none⟩, ⟨false, false, none, none⟩, .LOGIN⟩) ∧
    AppMain.runRefreshOnce 0 (some ⟨false, "x", none, none⟩)
        ⟨⟨some "t", some "u", some "rt", some 99⟩, ⟨true, false, some "t", some "u"⟩,
         .ADMIN_DASHBOARD⟩
      = (⟨⟨none, none, none, none⟩, ⟨false, false, none, none⟩, .LOGIN⟩, ⟨none⟩, none, 1) := by
  have h := C6_amended_refresh_failure 0 (some ⟨false, "x", none, none⟩)
    ⟨⟨some "t", some "u", some "rt", some 99⟩, ⟨true, false, some "t", some "u"⟩,
     .ADMIN_DASHBOARD⟩
  have h1 := h.2.1 "rt" ⟨false, "x", none, none⟩ rfl rfl rfl
  have h2 := h.2.2 (by rw [h1])
  rw [h1] at h2
  exact ⟨h1, h2⟩

end SendHuny
